import Mathlib

/-
Verification development for the car-price-intelligence decision pipeline.

The program's percentage quantities (90-day price change, price-vs-median
percentage, decision thresholds) are one-decimal numbers; they are embedded
exactly as integers counting tenths of a percent (so the source's -3.0 is -30,
-10.2 is -102, and so on).  Prices, confidence scores and risk scores are
integers in the source and stay integers here.
-/

namespace CarIntel

/-! ## Decision engine

Thresholds and rule order from the DecisionAgent pseudocode in README
(`backend/agents/decision_agent.py`, applied in strict priority order,
first match wins). -/

/-- Rule-1 threshold on the 90-day price change: -3.0 percent, in tenths. -/
def THRESH_WAIT_CHANGE : ℤ := -30

/-- Confidence threshold shared by rules 1 and 3. -/
def THRESH_CONFIDENCE : ℕ := 75

/-- Rule-2 threshold on the 90-day price change: +2.0 percent, in tenths. -/
def THRESH_BUY_CHANGE : ℤ := 20

/-- Rule-3 threshold on price vs regional median: -10.0 percent, in tenths. -/
def THRESH_BUY_MEDIAN : ℤ := -100

/-- Inputs consumed by the DecisionAgent: trend output (90-day percent price
change, in tenths), forecast confidence, risk output (volatility class) and
the market context's price-vs-median percentage (in tenths). -/
structure DecisionInput where
  price_change_pct : ℤ
  confidence : ℕ
  volatility : String
  price_vs_median_pct : ℤ
deriving DecidableEq

/-- The DecisionAgent's four ordered rules, first match wins; returns the
recommendation together with the matched rule identifier (1-4). -/
def decision_agent (i : DecisionInput) : String × ℕ :=
  if i.price_change_pct ≤ THRESH_WAIT_CHANGE ∧ i.confidence ≥ THRESH_CONFIDENCE then
    ("WAIT", 1)
  else if i.price_change_pct ≥ THRESH_BUY_CHANGE ∧ i.volatility = "Low" then
    ("BUY NOW", 2)
  else if i.price_vs_median_pct ≤ THRESH_BUY_MEDIAN ∧ i.confidence ≥ THRESH_CONFIDENCE then
    ("BUY NOW", 3)
  else
    ("MONITOR", 4)

/-- Human-readable rule labels as recorded in the demo agent logs of
`src/app/page.tsx` (the `rule` argument passed to `_alog`). -/
def ruleLabel : ℕ → String
  | 1 => "90d change <= -3% AND confidence >= 75 -> WAIT"
  | 2 => "90d change >= +2% AND volatility Low -> BUY NOW"
  | 3 => "price <= -10% vs median AND confidence >= 75 -> BUY NOW"
  | _ => "no dominant signal"

/-! ## Static demo data helpers (`src/app/page.tsx`) -/

/-- One point of the 12-month price history. -/
structure HistPoint where
  date : String
  avg_price : ℤ
deriving DecidableEq

/-- The twelve month labels used by `_hist`. -/
def HIST_DATES : List String :=
  ["Jan 24", "Feb 24", "Mar 24", "Apr 24", "May 24", "Jun 24",
   "Jul 24", "Aug 24", "Sep 24", "Oct 24", "Nov 24", "Dec 24"]

/-- The per-month wiggle in `_hist`: +180 when i mod 4 = 1, -120 when
i mod 4 = 3, else 0. -/
def histAdj (i : ℕ) : ℤ :=
  if i % 4 = 1 then 180 else if i % 4 = 3 then -120 else 0

/-- JavaScript Math.round(x / d) for an integer numerator x and positive
denominator d (round half toward positive infinity). -/
def jsRoundDiv (x d : ℤ) : ℤ := Int.fdiv (2 * x + d) (2 * d)

/-- `_hist(s, e)`: twelve points interpolating from s to e with the wiggle,
each `Math.round(s + (e - s) * i / 11 + adj)` computed exactly over ℤ as
`round((11 s + (e - s) i + 11 adj) / 11)`. -/
def _hist (s e : ℤ) : List HistPoint :=
  HIST_DATES.enum.map fun p =>
    { date := p.2, avg_price := jsRoundDiv (11 * s + (e - s) * p.1 + 11 * histAdj p.1) 11 }

/-- One agent-log entry: agent name, status, message, and the
`recommendation` / `confidence` fields of its structured output when the
source includes them (`output.recommendation`, `output.confidence`). -/
structure LogEntry where
  agent : String
  status : String
  message : String
  outRec : Option String
  outConf : Option ℕ
deriving DecidableEq

/-- JavaScript `Math.abs(x).toFixed(1)` for a tenths-valued integer x. -/
def fmtAbsTenths (t : ℤ) : String :=
  toString (t.natAbs / 10) ++ "." ++ toString (t.natAbs % 10)

/-- `_alog` from `src/app/page.tsx`: the nine-entry agent log attached to every
pre-computed demo result.  `fc90` is the 90-day change in tenths of a
percent. -/
def _alog (mk mo : String) (yr : ℤ) (rec : String) (conf : ℕ) (vol : String)
    (risk : ℕ) (fc90 : ℤ) (cnt : ℕ) (rule : String) : List LogEntry :=
  let sig := if vol = "Low" then "4.1%" else if vol = "Moderate" then "8.3%" else "14.6%"
  let dir := if fc90 ≥ 0 then "Upward" else "Downward"
  [ { agent := "OrchestratorAgent", status := "ok",
      message := "Initiating 7-agent pipeline for " ++ toString yr ++ " " ++ mk ++ " " ++ mo,
      outRec := none, outConf := none },
    { agent := "DataAgent", status := "ok",
      message := "Loaded " ++ toString cnt ++ " active listings + 12-month history via MongoDB Atlas",
      outRec := none, outConf := none },
    { agent := "TrendAnalysisAgent", status := "ok",
      message := dir ++ " trend - EMA(3m) slope " ++ fmtAbsTenths fc90 ++ "%/mo",
      outRec := none, outConf := none },
    { agent := "ForecastAgent", status := "ok",
      message := "LLM-blended forecast complete (Prophet 70% x XGBoost 30%)",
      outRec := none, outConf := none },
    { agent := "RiskAssessmentAgent", status := "ok",
      message := vol ++ " volatility - sigma=" ++ sig ++ ", risk score " ++ toString risk ++ "/100",
      outRec := none, outConf := none },
    { agent := "DecisionAgent", status := "ok",
      message := "Rule matched: \"" ++ rule ++ "\" -> " ++ rec,
      outRec := some rec, outConf := some conf },
    { agent := "ExplanationAgent", status := "ok",
      message := "3-point analyst reasoning generated (GPT-4o-mini, " ++ toString conf ++ "% weighted)",
      outRec := none, outConf := some conf },
    { agent := "EthicsAgent", status := "ok",
      message := "Fairness audit passed - pricing based on market data only",
      outRec := none, outConf := none },
    { agent := "OrchestratorAgent", status := "ok",
      message := "Pipeline complete - " ++ rec ++ " (" ++ toString conf ++ "% confidence). Caching in Redis.",
      outRec := some rec, outConf := none } ]

/-- Market context of a demo result (`tool_outputs.get_market_context`);
`price_vs_median_pct` in tenths of a percent. -/
structure MarketContext where
  current_inventory_count : ℕ
  inventory_trend : String
  price_vs_median_pct : ℤ
deriving DecidableEq

/-- Forecast tool output of a demo result (`tool_outputs.run_forecast`);
`trend_pct_change` in tenths of a percent. -/
structure RunForecast where
  last_known_price : ℤ
  trend_pct_change : ℤ
  forecast_30d : ℤ
  forecast_90d : ℤ
  method : String
deriving DecidableEq

/-- The demo tool outputs referenced by the claims (price history, forecast and
market context). -/
structure ToolOutputs where
  get_price_history : List HistPoint
  run_forecast : RunForecast
  get_market_context : MarketContext
deriving DecidableEq

/-- One pre-computed entry of `DEMO_DATA_MAP`; `predicted_90_day_change` in
tenths of a percent. -/
structure DemoEntry where
  key : String
  final_recommendation : String
  confidence_score : ℕ
  volatility_index : String
  risk_score : ℕ
  predicted_price : ℤ
  projected_price : ℤ
  forecast_30d : ℤ
  forecast_90d : ℤ
  predicted_90_day_change : ℤ
  uncertainty_low : ℤ
  uncertainty_high : ℤ
  forecast_method : String
  agent_log : List LogEntry
  tool_outputs : ToolOutputs
deriving DecidableEq

/-- The stored inputs of a demo entry, assembled for the decision rules:
90-day change, confidence, volatility, and price-vs-median from the entry's
market context. -/
def decisionInputOf (e : DemoEntry) : DecisionInput :=
  { price_change_pct := e.predicted_90_day_change
    confidence := e.confidence_score
    volatility := e.volatility_index
    price_vs_median_pct := e.tool_outputs.get_market_context.price_vs_median_pct }

/-- `DEMO_DATA_MAP["toyota|camry|2020"]`. -/
def toyotaCamry2020 : DemoEntry :=
  { key := "toyota|camry|2020", final_recommendation := "MONITOR", confidence_score := 72,
    volatility_index := "Low", risk_score := 28,
    predicted_price := 19200, projected_price := 19350, forecast_30d := 19280, forecast_90d := 19350,
    predicted_90_day_change := 8, uncertainty_low := 18700, uncertainty_high := 19900,
    forecast_method := "llm_blended",
    agent_log := _alog "Toyota" "Camry" 2020 "MONITOR" 72 "Low" 28 8 42 "no dominant signal",
    tool_outputs :=
      { get_price_history := _hist 18800 19200,
        run_forecast := ⟨19200, 8, 19280, 19350, "llm_blended"⟩,
        get_market_context := ⟨42, "stable", 12⟩ } }

/-- `DEMO_DATA_MAP["honda|civic|2020"]`. -/
def hondaCivic2020 : DemoEntry :=
  { key := "honda|civic|2020", final_recommendation := "BUY NOW", confidence_score := 84,
    volatility_index := "Low", risk_score := 18,
    predicted_price := 16800, projected_price := 16450, forecast_30d := 16680, forecast_90d := 16450,
    predicted_90_day_change := -21, uncertainty_low := 15900, uncertainty_high := 17100,
    forecast_method := "llm_blended",
    agent_log := _alog "Honda" "Civic" 2020 "BUY NOW" 84 "Low" 18 (-21) 48
      "price <= -10% vs median AND confidence >= 75 -> BUY NOW",
    tool_outputs :=
      { get_price_history := _hist 16900 16800,
        run_forecast := ⟨16800, -21, 16680, 16450, "llm_blended"⟩,
        get_market_context := ⟨48, "growing", -102⟩ } }

/-- `DEMO_DATA_MAP["ford|f-150|2019"]`. -/
def fordF150_2019 : DemoEntry :=
  { key := "ford|f-150|2019", final_recommendation := "WAIT", confidence_score := 79,
    volatility_index := "Moderate", risk_score := 48,
    predicted_price := 28400, projected_price := 27435, forecast_30d := 27980, forecast_90d := 27435,
    predicted_90_day_change := -34, uncertainty_low := 26800, uncertainty_high := 29200,
    forecast_method := "llm_blended",
    agent_log := _alog "Ford" "F-150" 2019 "WAIT" 79 "Moderate" 48 (-34) 78
      "90d change <= -3% AND confidence >= 75 -> WAIT",
    tool_outputs :=
      { get_price_history := _hist 29500 28400,
        run_forecast := ⟨28400, -34, 27980, 27435, "llm_blended"⟩,
        get_market_context := ⟨78, "declining", 21⟩ } }

/-- `DEMO_DATA_MAP["jeep|wrangler|2020"]`. -/
def jeepWrangler2020 : DemoEntry :=
  { key := "jeep|wrangler|2020", final_recommendation := "BUY NOW", confidence_score := 88,
    volatility_index := "Low", risk_score := 16,
    predicted_price := 31200, projected_price := 33320, forecast_30d := 31840, forecast_90d := 33320,
    predicted_90_day_change := 68, uncertainty_low := 30100, uncertainty_high := 34600,
    forecast_method := "llm_blended",
    agent_log := _alog "Jeep" "Wrangler" 2020 "BUY NOW" 88 "Low" 16 68 28
      "90d change >= +2% AND volatility Low -> BUY NOW",
    tool_outputs :=
      { get_price_history := _hist 29500 31200,
        run_forecast := ⟨31200, 68, 31840, 33320, "llm_blended"⟩,
        get_market_context := ⟨28, "growing", -21⟩ } }

/-- `DEMO_DATA_MAP["bmw|3 series|2020"]`. -/
def bmw3Series2020 : DemoEntry :=
  { key := "bmw|3 series|2020", final_recommendation := "WAIT", confidence_score := 76,
    volatility_index := "Moderate", risk_score := 42,
    predicted_price := 32500, projected_price := 31590, forecast_30d := 32180, forecast_90d := 31590,
    predicted_90_day_change := -28, uncertainty_low := 30400, uncertainty_high := 34100,
    forecast_method := "llm_blended",
    agent_log := _alog "BMW" "3 Series" 2020 "WAIT" 76 "Moderate" 42 (-28) 35
      "90d change <= -3% AND confidence >= 75 -> WAIT",
    tool_outputs :=
      { get_price_history := _hist 33800 32500,
        run_forecast := ⟨32500, -28, 32180, 31590, "llm_blended"⟩,
        get_market_context := ⟨35, "stable", 42⟩ } }

/-- `DEMO_DATA_MAP["toyota|tacoma|2020"]`. -/
def toyotaTacoma2020 : DemoEntry :=
  { key := "toyota|tacoma|2020", final_recommendation := "BUY NOW", confidence_score := 91,
    volatility_index := "Low", risk_score := 14,
    predicted_price := 29400, projected_price := 31580, forecast_30d := 30120, forecast_90d := 31580,
    predicted_90_day_change := 74, uncertainty_low := 28600, uncertainty_high := 32800,
    forecast_method := "llm_blended",
    agent_log := _alog "Toyota" "Tacoma" 2020 "BUY NOW" 91 "Low" 14 74 22
      "90d change >= +2% AND volatility Low -> BUY NOW",
    tool_outputs :=
      { get_price_history := _hist 27500 29400,
        run_forecast := ⟨29400, 74, 30120, 31580, "llm_blended"⟩,
        get_market_context := ⟨22, "growing", 28⟩ } }

/-- `DEMO_DATA_MAP["honda|accord|2020"]`. -/
def hondaAccord2020 : DemoEntry :=
  { key := "honda|accord|2020", final_recommendation := "MONITOR", confidence_score := 70,
    volatility_index := "Low", risk_score := 26,
    predicted_price := 21800, projected_price := 21910, forecast_30d := 21860, forecast_90d := 21910,
    predicted_90_day_change := 5, uncertainty_low := 21200, uncertainty_high := 22500,
    forecast_method := "llm_blended",
    agent_log := _alog "Honda" "Accord" 2020 "MONITOR" 70 "Low" 26 5 38 "no dominant signal",
    tool_outputs :=
      { get_price_history := _hist 21600 21800,
        run_forecast := ⟨21800, 5, 21860, 21910, "llm_blended"⟩,
        get_market_context := ⟨38, "stable", 8⟩ } }

/-- `DEMO_DATA_MAP["chevrolet|malibu|2019"]`. -/
def chevroletMalibu2019 : DemoEntry :=
  { key := "chevrolet|malibu|2019", final_recommendation := "WAIT", confidence_score := 75,
    volatility_index := "Moderate", risk_score := 46,
    predicted_price := 15200, projected_price := 14565, forecast_30d := 14950, forecast_90d := 14565,
    predicted_90_day_change := -42, uncertainty_low := 13800, uncertainty_high := 16100,
    forecast_method := "llm_blended",
    agent_log := _alog "Chevrolet" "Malibu" 2019 "WAIT" 75 "Moderate" 46 (-42) 56
      "90d change <= -3% AND confidence >= 75 -> WAIT",
    tool_outputs :=
      { get_price_history := _hist 16500 15200,
        run_forecast := ⟨15200, -42, 14950, 14565, "llm_blended"⟩,
        get_market_context := ⟨56, "declining", 18⟩ } }

/-- `DEMO_DATA_MAP["toyota|rav4|2020"]`. -/
def toyotaRav4_2020 : DemoEntry :=
  { key := "toyota|rav4|2020", final_recommendation := "BUY NOW", confidence_score := 85,
    volatility_index := "Low", risk_score := 20,
    predicted_price := 26100, projected_price := 27170, forecast_30d := 26480, forecast_90d := 27170,
    predicted_90_day_change := 41, uncertainty_low := 25200, uncertainty_high := 28300,
    forecast_method := "llm_blended",
    agent_log := _alog "Toyota" "RAV4" 2020 "BUY NOW" 85 "Low" 20 41 44
      "90d change >= +2% AND volatility Low -> BUY NOW",
    tool_outputs :=
      { get_price_history := _hist 24800 26100,
        run_forecast := ⟨26100, 41, 26480, 27170, "llm_blended"⟩,
        get_market_context := ⟨44, "growing", 14⟩ } }

/-- All nine entries of `DEMO_DATA_MAP`, in source order. -/
def demoEntries : List DemoEntry :=
  [toyotaCamry2020, hondaCivic2020, fordF150_2019, jeepWrangler2020, bmw3Series2020,
   toyotaTacoma2020, hondaAccord2020, chevroletMalibu2019, toyotaRav4_2020]

/-- The keys of the `SIG_CFG` signal-to-style map of `src/app/page.tsx`. -/
def SIG_CFG_KEYS : List String := ["BUY NOW", "BUY", "WAIT", "MONITOR", "NEUTRAL"]

/-- The three pipeline signals. -/
def PIPELINE_SIGNALS : List String := ["BUY NOW", "WAIT", "MONITOR"]

/-! ## Chart series construction

Two implementations exist: `chartData` in `src/app/page.tsx` (driven by a
pre-computed demo entry) and the `chartData` memo of the frontend AnalyzeTab
(driven by an arbitrary backend result whose forecast may be absent or carry
an error field). -/

/-- One point of the chart series: a date label, the historical price (absent
on forecast points) and the forecast price (absent on pure history points). -/
structure ChartPt where
  date : String
  historical : Option ℤ
  forecast : Option ℤ
deriving DecidableEq

/-- `pts[pts.length - 1].forecast = pts[pts.length - 1].historical`: copy the
last point's historical value into its forecast field so the two chart series
join; no effect on an empty list. -/
def joinForecast : List ChartPt → List ChartPt
  | [] => []
  | [p] => [{ p with forecast := p.historical }]
  | p :: q :: rest => p :: joinForecast (q :: rest)

/-- Map a history point to a history-only chart point. -/
def histPt (h : HistPoint) : ChartPt := ⟨h.date, some h.avg_price, none⟩

/-- `chartData` of `src/app/page.tsx`: history points, then - when
`fc.last_known_price` is truthy and a 30- or 90-day forecast value is truthy -
the joined last point plus the three forecast points "Now", "+30d", "+90d".
`result.forecast_30d || fc.forecast_30d` is JavaScript truthiness choice:
the entry field unless it is zero. -/
def chartData (e : DemoEntry) : List ChartPt :=
  let fc := e.tool_outputs.run_forecast
  let forecast30 := if e.forecast_30d ≠ 0 then e.forecast_30d else fc.forecast_30d
  let forecast90 := if e.forecast_90d ≠ 0 then e.forecast_90d else fc.forecast_90d
  let pts := e.tool_outputs.get_price_history.map histPt
  if fc.last_known_price ≠ 0 ∧ (forecast30 ≠ 0 ∨ forecast90 ≠ 0) then
    joinForecast pts ++
      [⟨"Now", none, some fc.last_known_price⟩,
       ⟨"+30d", none, some forecast30⟩,
       ⟨"+90d", none, some forecast90⟩]
  else pts

/-- The `run_forecast` tool output as seen by the frontend AnalyzeTab: every
field may be missing, and a failed forecast carries an `error` field. -/
structure RunForecastTab where
  error : Option String
  last_known_price : Option ℤ
  forecast_30d : Option ℤ
  forecast_90d : Option ℤ
deriving DecidableEq

/-- JavaScript truthiness of an optional number: present and non-zero. -/
def truthyNum : Option ℤ → Bool
  | none => false
  | some v => v ≠ 0

/-- The AnalyzeTab `chartData` memo: history points, then - when the forecast
has no error and a truthy `last_known_price` - the joined last point plus the
three forecast points "Now", "+30d", "+90d" carrying the forecast fields. -/
def chartDataTab (hist : List HistPoint) (fc : RunForecastTab) : List ChartPt :=
  let data := hist.map histPt
  if fc.error = none ∧ truthyNum fc.last_known_price then
    joinForecast data ++
      [⟨"Now", none, fc.last_known_price⟩,
       ⟨"+30d", none, fc.forecast_30d⟩,
       ⟨"+90d", none, fc.forecast_90d⟩]
  else data

/-! ## The GET /predict proxy route (`src/app/api/predict`, appended to
`src/app/page.tsx`) -/

/-- Decidable equality for `Except`, used by the fetch-outcome type below. -/
instance {ε α : Type} [DecidableEq ε] [DecidableEq α] : DecidableEq (Except ε α) :=
  fun x y =>
    match x, y with
    | .ok a, .ok b =>
        if h : a = b then isTrue (by rw [h]) else isFalse (fun he => h (Except.ok.inj he))
    | .error a, .error b =>
        if h : a = b then isTrue (by rw [h]) else isFalse (fun he => h (Except.error.inj he))
    | .ok _, .error _ => isFalse (fun he => Except.noConfusion he)
    | .error _, .ok _ => isFalse (fun he => Except.noConfusion he)

/-- Outcome of the proxied `fetch` against the backend: either the backend
responded - with a status code, the raw body text that `res.text()` reads,
and what `await res.json()` yields on that body (the parsed JSON document, or
the message of the exception the parse throws, e.g. on an empty or malformed
body) - or the fetch itself rejected with an error message (connection
refused, fetch failure, the 30-second abort timeout, or any other internal
error). -/
inductive FetchOutcome where
  | responded (status : ℕ) (body : String) (json : Except String String)
  | failed (message : String)
deriving DecidableEq

/-- Does the character sequence start with the pattern? -/
def startsWithSeq : List Char → List Char → Bool
  | _, [] => true
  | [], _ :: _ => false
  | c :: cs, d :: ds => c == d && startsWithSeq cs ds

/-- Does the character sequence contain the pattern as a contiguous run? -/
def containsSeq : List Char → List Char → Bool
  | [], pat => pat.isEmpty
  | c :: cs, pat => startsWithSeq (c :: cs) pat || containsSeq cs pat

/-- JavaScript `message.includes(pat)`. -/
def strIncludes (s pat : String) : Bool := containsSeq s.toList pat.toList

/-- The substrings the route treats as connection-level failures. -/
def CONNECTION_MARKERS : List String :=
  ["ECONNREFUSED", "fetch failed", "TimeoutError", "abort"]

/-- Is the caught error message a connection-level failure? -/
def isConnectionMessage (m : String) : Bool :=
  CONNECTION_MARKERS.any (fun pat => strIncludes m pat)

/-- The 503 body returned when the backend is unreachable. -/
def UNREACHABLE_BODY : String :=
  "Backend service is not reachable. Make sure the FastAPI server is running and NEXT_PUBLIC_API_URL is set correctly."

/-- The route's single catch block, reached by every exception thrown inside
the try (a rejected fetch as well as a failed `res.json()` parse): a message
matching a connection marker becomes 503 with the unreachable body, anything
else becomes 500 with the message. -/
def catchResponse (message : String) : ℕ × String :=
  if isConnectionMessage message then (503, UNREACHABLE_BODY)
  else (500, message)

/-- The GET handler, as (status, body): a non-OK backend response (status
outside 200-299) is returned with the backend's status and its body (or a
synthesized message when the body is empty); an OK response has its body
parsed by `await res.json()` - on success the parsed JSON is returned as 200,
while a parse failure (empty or malformed body) throws into the catch block;
a rejected fetch also lands in the catch block. -/
def routeGET (o : FetchOutcome) : ℕ × String :=
  match o with
  | .responded status body json =>
      if 200 ≤ status ∧ status ≤ 299 then
        match json with
        | .ok data => (200, data)
        | .error message => catchResponse message
      else (status, if body ≠ "" then body else "Backend returned " ++ toString status)
  | .failed message => catchResponse message

/-! ## Circuit breaker -/

/-- Modelled from the spec: the CircuitBreaker implementation lives in the
Python backend, which is not among these sources; this state machine follows
spec section 4.3 and the README description.  CLOSED counts consecutive
failures; OPEN records its transition time and fast-fails until the cooldown
elapses; the first call after the cooldown is the single HALF_OPEN probe. -/
inductive CBState where
  | closed (consecutiveFailures : ℕ)
  | opened (transitionTime : ℕ)
  | halfOpen
deriving DecidableEq

/-- Modelled from the spec: breaker configuration - the consecutive-failure
threshold K and the cooldown length. -/
structure CBConfig where
  failureThreshold : ℕ
  cooldown : ℕ
deriving DecidableEq

/-- Modelled from the spec: what a breaker-protected call yields - the wrapped
call's value, the wrapped call's failure, or the designated per-call-site
fallback when the call was fast-failed. -/
inductive CBValue (α : Type) where
  | result (v : α)
  | failure
  | fallback (v : α)
deriving DecidableEq

/-- Modelled from the spec: outcome of one breaker-protected call - the next
breaker state, whether the wrapped function was invoked, and the value. -/
structure CBStep (α : Type) where
  state : CBState
  invoked : Bool
  value : CBValue α
deriving DecidableEq

/-- Modelled from the spec: the HALF_OPEN probe - its outcome alone determines
the next state (success closes and resets counters, failure re-opens and
restarts the cooldown from now). -/
def cbProbe {α : Type} (now : ℕ) (outcome : Option α) : CBState × CBValue α :=
  match outcome with
  | some v => (.closed 0, .result v)
  | none => (.opened now, .failure)

/-- Modelled from the spec: one breaker-protected call at time `now`;
`outcome` is what the wrapped function would return if invoked, `fb` the
designated per-call-site fallback. -/
def cbCall {α : Type} (cfg : CBConfig) (fb : α) (s : CBState) (now : ℕ)
    (outcome : Option α) : CBStep α :=
  match s with
  | .closed n =>
      match outcome with
      | some v => ⟨.closed 0, true, .result v⟩
      | none =>
          ⟨if n + 1 ≥ cfg.failureThreshold then .opened now else .closed (n + 1),
           true, .failure⟩
  | .opened t =>
      if now - t ≥ cfg.cooldown then
        let p := cbProbe now outcome
        ⟨p.1, true, p.2⟩
      else ⟨.opened t, false, .fallback fb⟩
  | .halfOpen =>
      let p := cbProbe now outcome
      ⟨p.1, true, p.2⟩

/-- Modelled from the spec: the breaker state after k consecutive failing
calls starting from a fresh CLOSED breaker, all at time `now`. -/
def cbFailures {α : Type} (cfg : CBConfig) (fb : α) (now : ℕ) : ℕ → CBState
  | 0 => .closed 0
  | k + 1 => (cbCall cfg fb (cbFailures cfg fb now k) now none).state

/-! ## Rate limiter -/

/-- Modelled from the spec: the token-bucket RateLimiter lives in the Python
backend, which is not among these sources; capacity and refill rate follow the
README (60 tokens per client, 1 token per second). -/
def RL_CAPACITY : ℤ := 60

/-- Modelled from the spec: refill rate in tokens per second. -/
def RL_REFILL_RATE : ℤ := 1

/-- Modelled from the spec: `admit` removes one token when available and
admits; otherwise it rejects (mapped to HTTP 429) without blocking. -/
def rlAdmit (tokens : ℤ) : Bool × ℤ :=
  if 1 ≤ tokens then (true, tokens - 1) else (false, tokens)

/-- Modelled from the spec: refill after `seconds` seconds, capped at the
bucket capacity. -/
def rlRefill (tokens : ℤ) (seconds : ℕ) : ℤ :=
  min RL_CAPACITY (tokens + RL_REFILL_RATE * (seconds : ℤ))

/-- Modelled from the spec: the admission results of a burst of n back-to-back
requests (no refill in between). -/
def rlBurst (tokens : ℤ) : ℕ → List Bool
  | 0 => []
  | n + 1 =>
      let r := rlAdmit tokens
      r.1 :: rlBurst r.2 n

/-- Modelled from the spec: events seen by one client's bucket - a request, or
idle seconds during which the bucket refills. -/
inductive RLOp where
  | request
  | elapse (seconds : ℕ)
deriving DecidableEq

/-- Modelled from the spec: one bucket transition. -/
def rlStep (tokens : ℤ) : RLOp → ℤ
  | .request => (rlAdmit tokens).2
  | .elapse s => rlRefill tokens s

/-- Modelled from the spec: the bucket after an arbitrary admission/refill
sequence. -/
def rlRun (tokens : ℤ) (ops : List RLOp) : ℤ := ops.foldl rlStep tokens

/-! ## Car catalog generation (`src/scripts/generate-car-catalog.mjs`) -/

/-- One `{make, model, year}` entry extracted from `backend/car_catalog.py`. -/
structure CatalogEntry where
  make : String
  model : String
  year : ℕ
deriving DecidableEq

/-- Append a year unless it is already present (the script's
`includes`-guarded push). -/
def addYear (ys : List ℕ) (y : ℕ) : List ℕ :=
  if y ∈ ys then ys else ys ++ [y]

/-- The year list accumulated for one make and model by the script's first
pass, in first-occurrence order. -/
def modelYearsRaw (entries : List CatalogEntry) (mk mo : String) : List ℕ :=
  entries.foldl (fun ys e => if e.make = mk ∧ e.model = mo then addYear ys e.year else ys) []

/-- The final year list for one make and model: the accumulated years sorted
descending (the script's `sort((a, b) => b - a)`). -/
def yearsDesc (entries : List CatalogEntry) (mk mo : String) : List ℕ :=
  List.insertionSort (fun a b => b ≤ a) (modelYearsRaw entries mk mo)

instance : IsTotal ℕ (fun a b => b ≤ a) := ⟨fun a b => le_total b a⟩

instance : IsTrans ℕ (fun a b => b ≤ a) := ⟨fun _ _ _ h h2 => le_trans h2 h⟩

/-! ## Theorems -/

/-- The agent sequence of every `_alog` log is fixed, whatever the run data. -/
theorem alog_agent_names (mk mo : String) (yr : ℤ) (rec : String) (conf : ℕ)
    (vol : String) (risk : ℕ) (fc90 : ℤ) (cnt : ℕ) (rule : String) :
    (_alog mk mo yr rec conf vol risk fc90 cnt rule).map LogEntry.agent
      = ["OrchestratorAgent", "DataAgent", "TrendAnalysisAgent", "ForecastAgent",
         "RiskAssessmentAgent", "DecisionAgent", "ExplanationAgent", "EthicsAgent",
         "OrchestratorAgent"] := rfl

/-- C1: the four ordered decision rules do not reproduce every stored demo
recommendation.  On the `bmw|3 series|2020` entry the stored inputs
(90-day change -2.8 percent, confidence 76, Moderate volatility,
price vs median +4.2 percent) fall through to rule 4, MONITOR, yet the entry
stores WAIT - and its own DecisionAgent log entry cites rule 1 although the
stored change -2.8 is strictly above the -3 WAIT threshold. -/
theorem C1_bmw_demo_contradicts_decision_rules :
    decision_agent (decisionInputOf bmw3Series2020) = ("MONITOR", 4)
    ∧ bmw3Series2020.final_recommendation = "WAIT"
    ∧ bmw3Series2020.predicted_90_day_change = -28
    ∧ THRESH_WAIT_CHANGE < bmw3Series2020.predicted_90_day_change
    ∧ ((bmw3Series2020.agent_log.find? (fun en => en.agent == "DecisionAgent")).map
        LogEntry.message = some ("Rule matched: \"" ++ ruleLabel 1 ++ "\" -> WAIT")) := by
  decide

/-- C2: on the Honda Civic demo entry the market context shows
price_vs_median_pct = -10.2 percent with confidence 84, the four ordered rules
produce BUY NOW by rule 3, the stored recommendation is BUY NOW, and the
DecisionAgent log entry records the rule-3 label. -/
theorem C2_honda_civic_buy_now_rule3 :
    decision_agent (decisionInputOf hondaCivic2020) = ("BUY NOW", 3)
    ∧ hondaCivic2020.final_recommendation = "BUY NOW"
    ∧ hondaCivic2020.tool_outputs.get_market_context.price_vs_median_pct = -102
    ∧ hondaCivic2020.confidence_score = 84
    ∧ ((hondaCivic2020.agent_log.find? (fun en => en.agent == "DecisionAgent")).map
        LogEntry.message = some ("Rule matched: \"" ++ ruleLabel 3 ++ "\" -> BUY NOW")) := by
  decide

/-- C3: the decision function always yields exactly one of the three pipeline
signals BUY NOW, WAIT, MONITOR - never BUY or NEUTRAL, which the UI signal map
also accepts - and every `DEMO_DATA_MAP` entry stores one of the three. -/
theorem C3_recommendation_in_signal_set :
    (∀ i : DecisionInput, (decision_agent i).1 ∈ PIPELINE_SIGNALS)
    ∧ (∀ i : DecisionInput, (decision_agent i).1 ≠ "BUY" ∧ (decision_agent i).1 ≠ "NEUTRAL")
    ∧ ("BUY" ∈ SIG_CFG_KEYS ∧ "NEUTRAL" ∈ SIG_CFG_KEYS)
    ∧ (∀ e ∈ demoEntries, e.final_recommendation ∈ PIPELINE_SIGNALS) := by
  refine ⟨?_, ?_, by decide, by decide⟩
  · intro i
    unfold decision_agent
    split_ifs <;> simp [PIPELINE_SIGNALS]
  · intro i
    unfold decision_agent
    split_ifs <;> simp

/-- C3 witness: the first demo entry is in the map and its stored
recommendation is one of the three pipeline signals. -/
theorem C3_recommendation_in_signal_set_witness :
    toyotaCamry2020 ∈ demoEntries
    ∧ toyotaCamry2020.final_recommendation ∈ PIPELINE_SIGNALS :=
  ⟨by decide, C3_recommendation_in_signal_set.2.2.2 toyotaCamry2020 (by decide)⟩

/-- C4: in every demo entry the DecisionAgent log entry outputs exactly the
entry's final recommendation and confidence score; the closing
OrchestratorAgent entry reports the same recommendation in its output and the
same recommendation and confidence in its message; and the ExplanationAgent
and EthicsAgent entries carry no recommendation of their own (the explanation
entry echoes the unchanged confidence). -/
theorem C4_decision_values_propagate_unchanged :
    ∀ e ∈ demoEntries,
      ((e.agent_log.find? (fun en => en.agent == "DecisionAgent")).map
          (fun en => (en.outRec, en.outConf))
        = some (some e.final_recommendation, some e.confidence_score))
      ∧ (e.agent_log.getLast?.map (fun en => (en.agent, en.outRec, en.message))
        = some ("OrchestratorAgent", some e.final_recommendation,
            "Pipeline complete - " ++ e.final_recommendation ++ " ("
              ++ toString e.confidence_score ++ "% confidence). Caching in Redis."))
      ∧ ((e.agent_log.find? (fun en => en.agent == "ExplanationAgent")).map
          (fun en => (en.outRec, en.outConf)) = some (none, some e.confidence_score))
      ∧ ((e.agent_log.find? (fun en => en.agent == "EthicsAgent")).map
          (fun en => (en.outRec, en.outConf)) = some (none, none)) := by
  decide

/-- C4 witness: the Camry demo entry is in the map and its DecisionAgent log
entry outputs its final recommendation and confidence. -/
theorem C4_decision_values_propagate_unchanged_witness :
    toyotaCamry2020 ∈ demoEntries
    ∧ ((toyotaCamry2020.agent_log.find? (fun en => en.agent == "DecisionAgent")).map
        (fun en => (en.outRec, en.outConf))
      = some (some toyotaCamry2020.final_recommendation,
          some toyotaCamry2020.confidence_score)) :=
  ⟨by decide, (C4_decision_values_propagate_unchanged toyotaCamry2020 (by decide)).1⟩

/-- C5: in every agent log produced by `_alog`, the DataAgent entry precedes
the three Phase-2 entries (TrendAnalysisAgent, ForecastAgent,
RiskAssessmentAgent), all three precede the DecisionAgent entry, and the
DecisionAgent entry precedes the ExplanationAgent and EthicsAgent entries. -/
theorem C5_agent_log_phase_order (mk mo : String) (yr : ℤ) (rec : String) (conf : ℕ)
    (vol : String) (risk : ℕ) (fc90 : ℤ) (cnt : ℕ) (rule : String) :
    (((_alog mk mo yr rec conf vol risk fc90 cnt rule).map LogEntry.agent).indexOf "DataAgent"
        < ((_alog mk mo yr rec conf vol risk fc90 cnt rule).map LogEntry.agent).indexOf "TrendAnalysisAgent"
      ∧ ((_alog mk mo yr rec conf vol risk fc90 cnt rule).map LogEntry.agent).indexOf "DataAgent"
        < ((_alog mk mo yr rec conf vol risk fc90 cnt rule).map LogEntry.agent).indexOf "ForecastAgent"
      ∧ ((_alog mk mo yr rec conf vol risk fc90 cnt rule).map LogEntry.agent).indexOf "DataAgent"
        < ((_alog mk mo yr rec conf vol risk fc90 cnt rule).map LogEntry.agent).indexOf "RiskAssessmentAgent")
    ∧ (((_alog mk mo yr rec conf vol risk fc90 cnt rule).map LogEntry.agent).indexOf "TrendAnalysisAgent"
        < ((_alog mk mo yr rec conf vol risk fc90 cnt rule).map LogEntry.agent).indexOf "DecisionAgent"
      ∧ ((_alog mk mo yr rec conf vol risk fc90 cnt rule).map LogEntry.agent).indexOf "ForecastAgent"
        < ((_alog mk mo yr rec conf vol risk fc90 cnt rule).map LogEntry.agent).indexOf "DecisionAgent"
      ∧ ((_alog mk mo yr rec conf vol risk fc90 cnt rule).map LogEntry.agent).indexOf "RiskAssessmentAgent"
        < ((_alog mk mo yr rec conf vol risk fc90 cnt rule).map LogEntry.agent).indexOf "DecisionAgent")
    ∧ (((_alog mk mo yr rec conf vol risk fc90 cnt rule).map LogEntry.agent).indexOf "DecisionAgent"
        < ((_alog mk mo yr rec conf vol risk fc90 cnt rule).map LogEntry.agent).indexOf "ExplanationAgent"
      ∧ ((_alog mk mo yr rec conf vol risk fc90 cnt rule).map LogEntry.agent).indexOf "DecisionAgent"
        < ((_alog mk mo yr rec conf vol risk fc90 cnt rule).map LogEntry.agent).indexOf "EthicsAgent") := by
  simp only [alog_agent_names]
  decide

/-- C8 counterexample: backend status codes are not always passed through
unchanged, and 503 does not occur only when the backend is unreachable: a
backend 204 - a 2xx whose empty body makes `await res.json()` throw - is
answered with 500 (the parse error matches no connection marker), not 204;
and a backend-sent 503 is passed through although the backend responded. -/
theorem C8_status_passthrough_counterexample :
    (routeGET (.responded 204 "" (.error "Unexpected end of JSON input"))).1 = 500
    ∧ (routeGET (.responded 204 "" (.error "Unexpected end of JSON input"))).1 ≠ 204
    ∧ (routeGET (.responded 503 "backend dependency down" (.error "body is not JSON"))).1
      = 503 := by
  decide

/-- C8 as amended: a connection-level fetch failure (connection refused, fetch
failure, or the 30-second abort timeout) yields 503 with the unreachable body;
any other fetch failure yields 500 with its message; a backend response
outside 200-299 - including 429 and 400 - is passed through with its status
unchanged; a 2xx backend response whose body parses as JSON is returned as
200 with that JSON, and a 2xx whose body fails to parse throws into the catch
block, yielding 500 when the parse error matches no connection marker. -/
theorem C8_route_status_mapping :
    (∀ m : String, isConnectionMessage m = true →
        routeGET (.failed m) = (503, UNREACHABLE_BODY))
    ∧ (∀ m : String, isConnectionMessage m = false → routeGET (.failed m) = (500, m))
    ∧ (∀ (s : ℕ) (b : String) (j : Except String String), ¬(200 ≤ s ∧ s ≤ 299) →
        (routeGET (.responded s b j)).1 = s)
    ∧ (∀ (s : ℕ) (b d : String), 200 ≤ s ∧ s ≤ 299 →
        routeGET (.responded s b (.ok d)) = (200, d))
    ∧ (∀ (s : ℕ) (b m : String), 200 ≤ s ∧ s ≤ 299 → isConnectionMessage m = false →
        routeGET (.responded s b (.error m)) = (500, m))
    ∧ (routeGET (.failed "TimeoutError: the operation timed out")).1 = 503
    ∧ (routeGET (.failed "fetch failed")).1 = 503
    ∧ (routeGET (.failed "connect ECONNREFUSED 127.0.0.1:8000")).1 = 503 := by
  refine ⟨?_, ?_, ?_, ?_, ?_, by decide, by decide, by decide⟩
  · intro m h
    simp [routeGET, catchResponse, h]
  · intro m h
    simp [routeGET, catchResponse, h]
  · intro s b j h
    simp [routeGET, h]
  · intro s b d h
    simp [routeGET, h]
  · intro s b m h hm
    simp [routeGET, catchResponse, h, hm]

/-- C8 witness: concrete backend outcomes - a 429 passes through as 429, a 200
with a JSON body passes as 200 with that body, a 204 with an unparseable empty
body yields 500, and a fetch failure is answered with 503. -/
theorem C8_route_status_mapping_witness :
    (¬(200 ≤ 429 ∧ 429 ≤ 299)
      ∧ (routeGET (.responded 429 "rate limited" (.error "body is not JSON"))).1 = 429)
    ∧ ((200 ≤ 200 ∧ 200 ≤ 299)
      ∧ routeGET (.responded 200 "report body" (.ok "report json")) = (200, "report json"))
    ∧ ((200 ≤ 204 ∧ 204 ≤ 299)
      ∧ isConnectionMessage "Unexpected end of JSON input" = false
      ∧ routeGET (.responded 204 "" (.error "Unexpected end of JSON input"))
        = (500, "Unexpected end of JSON input"))
    ∧ (isConnectionMessage "fetch failed" = true
        ∧ routeGET (.failed "fetch failed") = (503, UNREACHABLE_BODY)) :=
  ⟨⟨by decide,
    C8_route_status_mapping.2.2.1 429 "rate limited" (.error "body is not JSON") (by decide)⟩,
   ⟨by decide,
    C8_route_status_mapping.2.2.2.1 200 "report body" "report json" (by decide)⟩,
   ⟨by decide, by decide,
    C8_route_status_mapping.2.2.2.2.1 204 "" "Unexpected end of JSON input"
      (by decide) (by decide)⟩,
   ⟨by decide, C8_route_status_mapping.1 "fetch failed" (by decide)⟩⟩

/-- Appending a new year keeps the accumulated year list duplicate-free. -/
theorem addYear_nodup {ys : List ℕ} {y : ℕ} (h : ys.Nodup) : (addYear ys y).Nodup := by
  unfold addYear
  split
  · exact h
  · next hy => simp [List.nodup_append, h, hy]

/-- The year list accumulated by the catalog script's first pass is
duplicate-free, from any duplicate-free starting accumulator. -/
theorem catalog_fold_nodup (entries : List CatalogEntry) (mk mo : String) :
    ∀ acc : List ℕ, acc.Nodup →
      (entries.foldl
        (fun ys e => if e.make = mk ∧ e.model = mo then addYear ys e.year else ys)
        acc).Nodup := by
  induction entries with
  | nil => intro acc h; simpa using h
  | cons e rest ih =>
      intro acc h
      simp only [List.foldl_cons]
      apply ih
      split
      · exact addYear_nodup h
      · exact h

/-- The raw year list for any make and model is duplicate-free. -/
theorem modelYearsRaw_nodup (entries : List CatalogEntry) (mk mo : String) :
    (modelYearsRaw entries mk mo).Nodup :=
  catalog_fold_nodup entries mk mo [] List.nodup_nil

/-- C10: for every make and model, the catalog year list produced by
`generate-car-catalog.mjs` is duplicate-free and sorted in strictly decreasing
order, for every list of extracted `{make, model, year}` entries. -/
theorem C10_catalog_years_sorted_nodup (entries : List CatalogEntry) (mk mo : String) :
    (yearsDesc entries mk mo).Nodup
    ∧ List.Pairwise (· > ·) (yearsDesc entries mk mo) := by
  have hperm :
      (yearsDesc entries mk mo).Perm (modelYearsRaw entries mk mo) :=
    List.perm_insertionSort _ _
  have hnd : (yearsDesc entries mk mo).Nodup :=
    hperm.symm.nodup (modelYearsRaw_nodup entries mk mo)
  have hsorted :
      List.Pairwise (fun a b : ℕ => b ≤ a) (yearsDesc entries mk mo) :=
    List.sorted_insertionSort _ _
  refine ⟨hnd, ?_⟩
  exact (hsorted.and hnd).imp fun hab => lt_of_le_of_ne hab.1 hab.2.symm

/-- Joining acts on the last point only: it copies that point's historical
value into its forecast field. -/
theorem joinForecast_append (xs : List ChartPt) (x : ChartPt) :
    joinForecast (xs ++ [x]) = xs ++ [{ x with forecast := x.historical }] := by
  induction xs with
  | nil => rfl
  | cons a as ih =>
      cases as with
      | nil => rfl
      | cons b bs =>
          simp only [List.cons_append, joinForecast] at ih ⊢
          exact congrArg (a :: ·) ih

/-- C9: the chart series is the price history in order followed by exactly
three forecast points "Now", "+30d", "+90d" carrying the last known price and
the 30- and 90-day forecasts, with the last history point's forecast field set
to its historical value so the two series join - whenever the forecast is
error-free with a truthy last known price (AnalyzeTab version) or has a
non-zero last known price and forecast values (demo-page version); with the
forecast errored or absent, the series is the history alone. -/
theorem C9_chart_series_shape :
    (∀ (hist : List HistPoint) (h : HistPoint) (fc : RunForecastTab),
        fc.error = none → truthyNum fc.last_known_price = true →
        (fc.forecast_30d ≠ none ∨ fc.forecast_90d ≠ none) →
        chartDataTab (hist ++ [h]) fc
          = hist.map histPt
            ++ [⟨h.date, some h.avg_price, some h.avg_price⟩,
                ⟨"Now", none, fc.last_known_price⟩,
                ⟨"+30d", none, fc.forecast_30d⟩,
                ⟨"+90d", none, fc.forecast_90d⟩])
    ∧ (∀ (hist : List HistPoint) (fc : RunForecastTab),
        fc.error ≠ none ∨ fc.last_known_price = none →
        chartDataTab hist fc = hist.map histPt)
    ∧ (∀ (e : DemoEntry) (hist : List HistPoint) (h : HistPoint),
        e.tool_outputs.get_price_history = hist ++ [h] →
        e.tool_outputs.run_forecast.last_known_price ≠ 0 →
        e.forecast_30d ≠ 0 → e.forecast_90d ≠ 0 →
        chartData e
          = hist.map histPt
            ++ [⟨h.date, some h.avg_price, some h.avg_price⟩,
                ⟨"Now", none, some e.tool_outputs.run_forecast.last_known_price⟩,
                ⟨"+30d", none, some e.forecast_30d⟩,
                ⟨"+90d", none, some e.forecast_90d⟩]) := by
  refine ⟨?_, ?_, ?_⟩
  · intro hist h fc he hl _
    unfold chartDataTab
    rw [if_pos ⟨he, hl⟩, List.map_append]
    simp [joinForecast_append, histPt]
  · intro hist fc hcase
    unfold chartDataTab
    rw [if_neg]
    rintro ⟨h1, h2⟩
    rcases hcase with hc | hc
    · exact hc h1
    · rw [hc] at h2
      simp [truthyNum] at h2
  · intro e hist h hh hl h30 h90
    unfold chartData
    simp only [hh, h30, h90, hl, ne_eq, not_false_eq_true, ite_true, true_and,
      true_or, if_true, List.map_append]
    simp [joinForecast_append, histPt]

/-- C9 witness: concrete instances of all three parts - a two-point history
with a complete forecast, an errored forecast left as history alone, and the
Camry demo entry whose twelve-point history is followed by the three forecast
points 19200, 19280, 19350. -/
theorem C9_chart_series_shape_witness :
    (chartDataTab [⟨"Jan 24", 100⟩, ⟨"Feb 24", 110⟩] ⟨none, some 120, some 125, some 130⟩
      = [⟨"Jan 24", some 100, none⟩, ⟨"Feb 24", some 110, some 110⟩,
         ⟨"Now", none, some 120⟩, ⟨"+30d", none, some 125⟩, ⟨"+90d", none, some 130⟩])
    ∧ (chartDataTab [⟨"Jan 24", 100⟩] ⟨some "forecast unavailable", some 120, some 125, some 130⟩
      = [⟨"Jan 24", some 100, none⟩])
    ∧ (chartData toyotaCamry2020
      = toyotaCamry2020.tool_outputs.get_price_history.dropLast.map histPt
        ++ [⟨"Dec 24", some 19080, some 19080⟩,
            ⟨"Now", none, some toyotaCamry2020.tool_outputs.run_forecast.last_known_price⟩,
            ⟨"+30d", none, some toyotaCamry2020.forecast_30d⟩,
            ⟨"+90d", none, some toyotaCamry2020.forecast_90d⟩]) := by
  refine ⟨?_, ?_, ?_⟩
  · exact C9_chart_series_shape.1 [⟨"Jan 24", 100⟩] ⟨"Feb 24", 110⟩
      ⟨none, some 120, some 125, some 130⟩ rfl (by decide) (Or.inl (by decide))
  · exact C9_chart_series_shape.2.1 [⟨"Jan 24", 100⟩]
      ⟨some "forecast unavailable", some 120, some 125, some 130⟩ (Or.inl (by decide))
  · exact C9_chart_series_shape.2.2 toyotaCamry2020
      toyotaCamry2020.tool_outputs.get_price_history.dropLast ⟨"Dec 24", 19080⟩
      (by decide) (by decide) (by decide) (by decide)

/-- A CLOSED breaker invoked on a failing call counts the failure and opens
exactly when the threshold is reached. -/
theorem cbCall_closed_failure {α : Type} (cfg : CBConfig) (fb : α) (n now : ℕ) :
    cbCall cfg fb (.closed n) now none
      = ⟨if n + 1 ≥ cfg.failureThreshold then .opened now else .closed (n + 1),
         true, .failure⟩ := rfl

/-- An OPEN breaker either runs the probe (cooldown elapsed) or fast-fails. -/
theorem cbCall_opened {α : Type} (cfg : CBConfig) (fb : α) (t now : ℕ) (outcome : Option α) :
    cbCall cfg fb (.opened t) now outcome
      = if now - t ≥ cfg.cooldown
        then ⟨(cbProbe now outcome).1, true, (cbProbe now outcome).2⟩
        else ⟨.opened t, false, .fallback fb⟩ := rfl

/-- Below the failure threshold the breaker stays CLOSED, counting the
consecutive failures. -/
theorem cbFailures_below_threshold {α : Type} (cfg : CBConfig) (fb : α) (now : ℕ) :
    ∀ k, k < cfg.failureThreshold → cbFailures cfg fb now k = .closed k := by
  intro k
  induction k with
  | zero => intro _; rfl
  | succ k ih =>
      intro hk
      unfold cbFailures
      rw [ih (Nat.lt_of_succ_lt hk), cbCall_closed_failure]
      rw [if_neg (by omega)]

/-- C6: after K consecutive failures (K the configured threshold) the breaker
is OPEN; while OPEN and inside the cooldown every call is fast-failed with the
designated per-call-site fallback without invoking the wrapped function; once
the cooldown has elapsed exactly one probe call goes through, and that single
call's outcome alone determines whether the breaker closes (resetting the
failure count) or re-opens (restarting the cooldown from the probe time). -/
theorem C6_circuit_breaker_protocol {α : Type} (cfg : CBConfig) (fb : α) :
    (∀ now : ℕ, 1 ≤ cfg.failureThreshold →
        cbFailures cfg fb now cfg.failureThreshold = .opened now)
    ∧ (∀ (t now : ℕ) (outcome : Option α), now - t < cfg.cooldown →
        cbCall cfg fb (.opened t) now outcome = ⟨.opened t, false, .fallback fb⟩)
    ∧ (∀ (t now : ℕ) (v : α), cfg.cooldown ≤ now - t →
        cbCall cfg fb (.opened t) now (some v) = ⟨.closed 0, true, .result v⟩)
    ∧ (∀ (t now : ℕ), cfg.cooldown ≤ now - t →
        cbCall cfg fb (.opened t) now none = ⟨.opened now, true, .failure⟩)
    ∧ (∀ (now : ℕ) (v : α), cbCall cfg fb .halfOpen now (some v) = ⟨.closed 0, true, .result v⟩)
    ∧ (∀ now : ℕ, cbCall cfg fb .halfOpen now none = ⟨.opened now, true, .failure⟩) := by
  refine ⟨?_, ?_, ?_, ?_, fun _ _ => rfl, fun _ => rfl⟩
  · intro now hK
    obtain ⟨m, hm⟩ : ∃ m, cfg.failureThreshold = m + 1 :=
      ⟨cfg.failureThreshold - 1, by omega⟩
    rw [hm]
    unfold cbFailures
    rw [cbFailures_below_threshold cfg fb now m (by omega), cbCall_closed_failure]
    rw [if_pos (by omega)]
  · intro t now outcome hcd
    rw [cbCall_opened]
    rw [if_neg (by omega)]
  · intro t now v hcd
    rw [cbCall_opened]
    rw [if_pos hcd]
    rfl
  · intro t now hcd
    rw [cbCall_opened]
    rw [if_pos hcd]
    rfl

/-- C6 witness: with threshold 5 and cooldown 60, five consecutive failures
open the breaker at time 100; at time 130 a ForecastAgent call is fast-failed
to its XGBoost-only fallback without invoking the wrapped function; at time
161 the single probe goes through, closing the breaker on success and
re-opening it (from time 161) on failure. -/
theorem C6_circuit_breaker_protocol_witness :
    (1 ≤ (5 : ℕ)
      ∧ cbFailures ⟨5, 60⟩ "XGBoost-only forecast" 100 5 = .opened 100)
    ∧ ((130 : ℕ) - 100 < 60
      ∧ cbCall ⟨5, 60⟩ "XGBoost-only forecast" (.opened 100) 130 (some "blended forecast")
        = ⟨.opened 100, false, .fallback "XGBoost-only forecast"⟩)
    ∧ ((60 : ℕ) ≤ 161 - 100
      ∧ cbCall ⟨5, 60⟩ "templated explanation" (.opened 100) 161 (some "llm text")
        = ⟨.closed 0, true, .result "llm text"⟩
      ∧ cbCall ⟨5, 60⟩ "templated explanation" (.opened 100) 161 none
        = ⟨.opened 161, true, .failure⟩) :=
  ⟨⟨by decide, (C6_circuit_breaker_protocol ⟨5, 60⟩ "XGBoost-only forecast").1 100 (by decide)⟩,
   ⟨by decide,
    (C6_circuit_breaker_protocol ⟨5, 60⟩ "XGBoost-only forecast").2.1 100 130
      (some "blended forecast") (by decide)⟩,
   ⟨by decide,
    (C6_circuit_breaker_protocol ⟨5, 60⟩ "templated explanation").2.2.1 100 161 "llm text"
      (by decide),
    (C6_circuit_breaker_protocol ⟨5, 60⟩ "templated explanation").2.2.2.1 100 161 (by decide)⟩⟩

/-- A burst against a bucket holding t tokens admits the first
`min n t` requests and rejects the rest. -/
theorem rlBurst_spec :
    ∀ (n : ℕ) (t : ℤ), 0 ≤ t →
      rlBurst t n
        = List.replicate (min n t.toNat) true ++ List.replicate (n - t.toNat) false := by
  intro n
  induction n with
  | zero => intro t _; simp [rlBurst]
  | succ n ih =>
      intro t ht
      by_cases h1 : 1 ≤ t
      · have hadm : rlAdmit t = (true, t - 1) := by unfold rlAdmit; rw [if_pos h1]
        have ht1 : (0 : ℤ) ≤ t - 1 := by omega
        have htn : (t - 1).toNat = t.toNat - 1 := by omega
        have htpos : 1 ≤ t.toNat := by omega
        unfold rlBurst
        rw [hadm]
        simp only
        rw [ih (t - 1) ht1, htn]
        rw [show min (n + 1) t.toNat = min n (t.toNat - 1) + 1 by omega]
        rw [show n + 1 - t.toNat = n - (t.toNat - 1) by omega]
        simp [List.replicate_succ]
      · have ht0 : t = 0 := by omega
        subst ht0
        have hadm : rlAdmit 0 = (false, 0) := by decide
        unfold rlBurst
        rw [hadm]
        simp only
        rw [ih 0 le_rfl]
        simp [List.replicate_succ]

/-- C7: a burst from a full bucket admits exactly the first 60 requests and
rejects every further one; the count of admitted requests in any burst of n is
min n 60; refilling an empty bucket for s seconds yields min 60 s tokens
(rate one token per second, capped at capacity); and under any sequence of
admissions and refills the token count stays between 0 and the capacity. -/
theorem C7_token_bucket_admission :
    (∀ n : ℕ, rlBurst RL_CAPACITY n
        = List.replicate (min n 60) true ++ List.replicate (n - 60) false)
    ∧ (∀ n : ℕ, (rlBurst RL_CAPACITY n).count true = min n 60)
    ∧ (∀ s : ℕ, rlRefill 0 s = min 60 (s : ℤ))
    ∧ (∀ (t : ℤ) (ops : List RLOp), 0 ≤ t → t ≤ RL_CAPACITY →
        0 ≤ rlRun t ops ∧ rlRun t ops ≤ RL_CAPACITY) := by
  have hburst : ∀ n : ℕ, rlBurst RL_CAPACITY n
      = List.replicate (min n 60) true ++ List.replicate (n - 60) false := by
    intro n
    have := rlBurst_spec n RL_CAPACITY (by decide)
    simpa [RL_CAPACITY] using this
  refine ⟨hburst, ?_, ?_, ?_⟩
  · intro n
    rw [hburst n]
    simp [List.count_append, List.count_replicate]
  · intro s
    simp [rlRefill, RL_CAPACITY, RL_REFILL_RATE]
  · intro t ops
    induction ops generalizing t with
    | nil => intro h0 hC; exact ⟨h0, hC⟩
    | cons op rest ih =>
        intro h0 hC
        have hC60 : t ≤ 60 := by simpa [RL_CAPACITY] using hC
        have hstep : 0 ≤ rlStep t op ∧ rlStep t op ≤ RL_CAPACITY := by
          cases op with
          | request =>
              by_cases h : 1 ≤ t <;>
                simp [rlStep, rlAdmit, h, RL_CAPACITY] <;> omega
          | elapse s =>
              simp [rlStep, rlRefill, RL_CAPACITY, RL_REFILL_RATE]
              omega
        have : rlRun t (op :: rest) = rlRun (rlStep t op) rest := by
          simp [rlRun, List.foldl_cons]
        rw [this]
        exact ih (rlStep t op) hstep.1 hstep.2

/-- C7 witness: a burst of 65 requests against a full bucket admits exactly
the first 60 and rejects the last 5; a 30-second refill of an empty bucket
yields 30 tokens; and a concrete admit/refill sequence keeps the count within
bounds. -/
theorem C7_token_bucket_admission_witness :
    (rlBurst RL_CAPACITY 65 = List.replicate 60 true ++ List.replicate 5 false)
    ∧ ((rlBurst RL_CAPACITY 65).count true = 60)
    ∧ (rlRefill 0 30 = 30)
    ∧ ((0 : ℤ) ≤ 60 ∧ (60 : ℤ) ≤ RL_CAPACITY
        ∧ 0 ≤ rlRun 60 [.request, .request, .elapse 3, .request]
        ∧ rlRun 60 [.request, .request, .elapse 3, .request] ≤ RL_CAPACITY) :=
  ⟨by simpa using C7_token_bucket_admission.1 65,
   by simpa using C7_token_bucket_admission.2.1 65,
   by simpa using C7_token_bucket_admission.2.2.1 30,
   ⟨by decide, by decide,
    (C7_token_bucket_admission.2.2.2 60 [.request, .request, .elapse 3, .request]
      (by decide) (by decide)).1,
    (C7_token_bucket_admission.2.2.2 60 [.request, .request, .elapse 3, .request]
      (by decide) (by decide)).2⟩⟩

end CarIntel






